import Mathlib

/-!
Verification of the data-preparation, experimentation and monitoring
notebooks of the Chicago-taxi MLOps repository.

The development shallowly embeds, in Lean:
* the data-preparation SQL script (its WHERE filter, its SELECT projection,
  the `tip_bin` label, the random split column, `CREATE OR REPLACE` and `LIMIT`);
* the Python `str.replace` chain that substitutes the script placeholders;
* the training-job polling loop of the experimentation notebook;
* the monitoring-job construction and list/select cells of the monitoring
  notebook.
-/

namespace TaxiPrep

/-- Timestamp fields read by the `EXTRACT(... FROM trip_start_timestamp)`
calls of the data-preparation SQL. -/
structure Timestamp where
  year : Nat
  month : Nat
  day : Nat
  dayOfWeek : Nat
  hour : Nat
deriving DecidableEq

/-- A raw `taxi_trips` row, holding the columns the `taxitrips` CTE of the
data-preparation SQL selects; the four coordinate columns are nullable. -/
structure RawTrip where
  trip_start_timestamp : Timestamp
  trip_seconds : ℚ
  trip_miles : ℚ
  payment_type : String
  pickup_longitude : Option ℚ
  pickup_latitude : Option ℚ
  dropoff_longitude : Option ℚ
  dropoff_latitude : Option ℚ
  tips : ℚ
  fare : ℚ
deriving DecidableEq

/-- The warehouse geospatial builtins used by the SELECT projection:
`ST_AsText(ST_SnapToGrid(ST_GeogPoint(lon, lat), 0.1))` (as one map from the
two coordinates to the grid-cell text) and the geodesic
`ST_Distance(ST_GeogPoint(a, b), ST_GeogPoint(c, d))`.  Their semantics live
inside the external warehouse, so the embedding is parameterized by them. -/
structure GeoFns where
  snapGridText : ℚ → ℚ → String
  distance : ℚ → ℚ → ℚ → ℚ → ℚ

/-- The WHERE filter of the `taxitrips` CTE: the four coordinates are
non-null, `trip_miles > 0`, `trip_seconds > 0`, `fare > 0`, and
`EXTRACT(YEAR FROM trip_start_timestamp) = @YEAR`. -/
def taxitripsFilter (year : Nat) (r : RawTrip) : Bool :=
  r.pickup_longitude.isSome && r.pickup_latitude.isSome &&
  r.dropoff_longitude.isSome && r.dropoff_latitude.isSome &&
  decide (0 < r.trip_miles) && decide (0 < r.trip_seconds) &&
  decide (0 < r.fare) && decide (r.trip_start_timestamp.year = year)

/-- A row of the prepared table, one field per column of the outer SELECT of
the data-preparation SQL (the split column is `data_split` in one notebook
and `ML_use` in the other; both hold the same kind of value). -/
structure PreparedRecord where
  trip_start_timestamp : Timestamp
  trip_month : Nat
  trip_day : Nat
  trip_day_of_week : Nat
  trip_hour : Nat
  trip_seconds : ℚ
  trip_miles : ℚ
  payment_type : String
  pickup_grid : String
  dropoff_grid : String
  euclidean : ℚ
  loc_cross : String
  tip_bin : Nat
  data_split : String
deriving DecidableEq

/-- The split expression `IF(RAND() > 0.8, 'UNASSIGNED', 'TEST') AS data_split` — the split
column of the `part_000` data-preparation notebook, as a function of the
uniform draw `r` that `RAND()` returns. -/
def dataSplitAssign (r : ℚ) : String :=
  if 0.8 < r then "UNASSIGNED" else "TEST"

/-- The split expression `IF(RAND() <= 0.8, 'UNASSIGNED', 'TEST') AS ML_use` — the split column
of the `01-dataset-management` notebook, as a function of the uniform draw
`r` that `RAND()` returns. -/
def mlUseAssign (r : ℚ) : String :=
  if r ≤ 0.8 then "UNASSIGNED" else "TEST"

/-- SQL division with its division-by-zero error branch made explicit. -/
def safeDiv (a b : ℚ) : Option ℚ :=
  if b = 0 then none else some (a / b)

/-- The outer SELECT projection of the data-preparation SQL applied to one
CTE row, given the draw `rnd` of `RAND()` for this row and the split
function of the notebook at hand.  The coordinate dereferences and the
`tips/fare` division are guarded: a null coordinate or a zero `fare`
lands in the `none` branch. -/
def projectRow (geo : GeoFns) (split : ℚ → String) (r : RawTrip) (rnd : ℚ) :
    Option PreparedRecord :=
  match r.pickup_longitude, r.pickup_latitude,
        r.dropoff_longitude, r.dropoff_latitude with
  | some plon, some plat, some dlon, some dlat =>
    match safeDiv r.tips r.fare with
    | some ratio =>
      some
        { trip_start_timestamp := r.trip_start_timestamp
          trip_month := r.trip_start_timestamp.month
          trip_day := r.trip_start_timestamp.day
          trip_day_of_week := r.trip_start_timestamp.dayOfWeek
          trip_hour := r.trip_start_timestamp.hour
          trip_seconds := r.trip_seconds
          trip_miles := r.trip_miles
          payment_type := r.payment_type
          pickup_grid := geo.snapGridText plon plat
          dropoff_grid := geo.snapGridText dlon dlat
          euclidean := geo.distance plon plat dlon dlat
          loc_cross := geo.snapGridText plon plat ++ geo.snapGridText dlon dlat
          tip_bin := if 0.2 ≤ ratio then 1 else 0
          data_split := split rnd }
    | none => none
  | _, _, _, _ => none

/-- Collect a list of guarded results, failing if any entry failed. -/
def sequenceOptions {α : Type} : List (Option α) → Option (List α)
  | [] => some []
  | none :: _ => none
  | some a :: rest => (sequenceOptions rest).map fun tl => a :: tl

/-- The whole data-preparation SELECT: filter the raw rows by the CTE's
WHERE clause, project each surviving row (row `i` drawing `rnd i` from
`RAND()`), and keep the first `limit` output rows (`LIMIT @LIMIT`).  Any
guarded projection failure surfaces as an error, as a SQL runtime error
would. -/
def prepareRecords (geo : GeoFns) (split : ℚ → String) (year limit : Nat)
    (raws : List RawTrip) (rnd : Nat → ℚ) :
    Except String (List PreparedRecord) :=
  match sequenceOptions ((raws.filter (taxitripsFilter year)).enum.map
      fun p => projectRow geo split p.2 (rnd p.1)) with
  | some recs => .ok (recs.take limit)
  | none => .error "SQL runtime error in SELECT projection"

end TaxiPrep

namespace Subst

/-- Python `s.replace(pat, rep)` for a nonempty pattern, on the character
list of the string: scan left to right, replacing each leftmost
non-overlapping occurrence of `pat` with `rep`.  (The notebooks only call
`replace` with nonempty patterns; for an empty pattern this embedding is
the identity.) -/
def replaceAll (pat rep : List Char) : List Char → List Char
  | [] => []
  | c :: s =>
    if pat.isPrefixOf (c :: s) && !pat.isEmpty then
      rep ++ replaceAll pat rep (List.drop (pat.length - 1) s)
    else
      c :: replaceAll pat rep s
termination_by s => s.length
decreasing_by
  · simp only [List.length_drop, List.length_cons]
    omega
  · simp only [List.length_cons]
    omega

/-- Python `str.replace` lifted back to `String`. -/
def pyReplace (s pat rep : String) : String :=
  String.mk (replaceAll pat.data rep.data s.data)

/-- Simultaneous substitution — the specification reading of the
placeholder substitution: scan the template once and, wherever one of the
placeholders of `subs` occurs, emit its value in place of that occurrence;
every other character of the template is kept unchanged. -/
def multiSubst (subs : List (List Char × List Char)) : List Char → List Char
  | [] => []
  | c :: s =>
    match subs.find? (fun pr => pr.1.isPrefixOf (c :: s) && !pr.1.isEmpty) with
    | some pr => pr.2 ++ multiSubst subs (List.drop (pr.1.length - 1) s)
    | none => c :: multiSubst subs s
termination_by s => s.length
decreasing_by
  · simp only [List.length_drop, List.length_cons]
    omega
  · simp only [List.length_cons]
    omega

/-- One piece of a segmented template: literal text, or the `i`-th
placeholder. -/
inductive Seg where
  | lit (s : List Char)
  | hole (i : Nat)

/-- Render a segmented template with the first `k` placeholders already
replaced by their values and the remaining ones still reading as
placeholder text. -/
def renderFrom (pats vals : Nat → List Char) (k : Nat) : List Seg → List Char
  | [] => []
  | Seg.lit s :: rest => s ++ renderFrom pats vals k rest
  | Seg.hole i :: rest =>
    (if i < k then vals i else pats i) ++ renderFrom pats vals k rest

/-- The first `n` replacement passes, in order: `chainOf pats vals n s`
replaces placeholder `0`, then `1`, …, then `n - 1` in `s`. -/
def chainOf (pats vals : Nat → List Char) : Nat → List Char → List Char
  | 0, s => s
  | n + 1, s => replaceAll (pats n) (vals n) (chainOf pats vals n s)

/-- The placeholder/value pairs of the first `n` placeholders. -/
def subsOf (pats vals : Nat → List Char) (n : Nat) : List (List Char × List Char) :=
  (List.range n).map fun i => (pats i, vals i)

/-- The placeholder marker character. -/
def atChar : Char := Char.ofNat 64

/-- Whether `s` contains no placeholder marker. -/
def atFree (s : List Char) : Bool :=
  !s.contains atChar

/-- Whether a segment's literal text is free of the placeholder marker
(placeholder segments pass vacuously). -/
def segLitAtFree : Seg → Bool
  | Seg.lit s => atFree s
  | Seg.hole _ => true

/-- Whether a segment's hole index is below `n` (literal segments pass
vacuously). -/
def segHoleLt (n : Nat) : Seg → Bool
  | Seg.lit _ => true
  | Seg.hole i => decide (i < n)

/-- Whether a placeholder is the marker followed by marker-free text. -/
def patShape (pat : List Char) : Bool :=
  match pat with
  | [] => false
  | c :: tl => c == atChar && atFree tl

/-- The side conditions under which the sequential `replace` chain agrees
with simultaneous substitution on a segmented template: every literal
chunk and every substituted value is free of the placeholder marker, every
placeholder starts with the marker and contains it nowhere else, no
placeholder is a prefix of another, and every hole refers to one of the
first `n` placeholders. -/
structure SubstSetup (pats vals : Nat → List Char) (n : Nat) (segs : List Seg) : Prop where
  litsAtFree : ∀ seg ∈ segs, segLitAtFree seg = true
  valsAtFree : ∀ i, i < n → atFree (vals i) = true
  patsShape : ∀ i, i < n → patShape (pats i) = true
  patsNoPrefix : ∀ i, i < n → ∀ j, j < n → i ≠ j → (pats i).isPrefixOf (pats j) = false
  holesLt : ∀ seg ∈ segs, segHoleLt n seg = true

/-- Rename one placeholder hole: the segmented template with every hole `a`
replaced by hole `b` (used to describe what the `replace` chain does when a
substituted value is itself a later placeholder). -/
def substHole (a b : Nat) : Seg → Seg
  | Seg.lit s => Seg.lit s
  | Seg.hole i => if i = a then Seg.hole b else Seg.hole i

end Subst

namespace PrepScript

open Subst TaxiPrep

/-- The five placeholders of the `part_000` data-preparation script, in the
order of its `replace` chain. -/
def pats000 : Nat → List Char
  | 0 => String.data "@PROJECT"
  | 1 => String.data "@DATASET"
  | 2 => String.data "@TABLE"
  | 3 => String.data "@YEAR"
  | _ => String.data "@LIMIT"

/-- The five placeholders of the `01-dataset-management` data-preparation
script, in the order of its `replace` chain. -/
def pats01 : Nat → List Char
  | 0 => String.data "@PROJECT_ID"
  | 1 => String.data "@DATASET"
  | 2 => String.data "@TABLE"
  | 3 => String.data "@YEAR"
  | _ => String.data "@LIMIT"

/-- The five values substituted for the placeholders: project, dataset,
table, `str(year)` and `str(sample_size)`. -/
def valsOf (p d t y l : String) : Nat → List Char
  | 0 => p.data
  | 1 => d.data
  | 2 => t.data
  | 3 => y.data
  | _ => l.data

def segs000 : List Seg :=
  [Seg.lit (String.data "\nCREATE OR REPLACE TABLE `"),
   Seg.hole 0,
   Seg.lit (String.data "."),
   Seg.hole 1,
   Seg.lit (String.data "."),
   Seg.hole 2,
   Seg.lit (String.data "` \nAS (\n    WITH\n      taxitrips AS (\n      SELECT\n        trip_start_timestamp,\n        trip_seconds,\n        trip_miles,\n        payment_type,\n        pickup_longitude,\n        pickup_latitude,\n        dropoff_longitude,\n        dropoff_latitude,\n        tips,\n        fare\n      FROM\n        `bigquery-public-data.chicago_taxi_trips.taxi_trips`\n      WHERE 1=1 \n      AND pickup_longitude IS NOT NULL\n      AND pickup_latitude IS NOT NULL\n      AND dropoff_longitude IS NOT NULL\n      AND dropoff_latitude IS NOT NULL\n      AND trip_miles > 0\n      AND trip_seconds > 0\n      AND fare > 0\n      AND EXTRACT(YEAR FROM trip_start_timestamp) = "),
   Seg.hole 3,
   Seg.lit (String.data "\n    )\n\n    SELECT\n      trip_start_timestamp,\n      EXTRACT(MONTH from trip_start_timestamp) as trip_month,\n      EXTRACT(DAY from trip_start_timestamp) as trip_day,\n      EXTRACT(DAYOFWEEK from trip_start_timestamp) as trip_day_of_week,\n      EXTRACT(HOUR from trip_start_timestamp) as trip_hour,\n      trip_seconds,\n      trip_miles,\n      payment_type,\n      ST_AsText(\n          ST_SnapToGrid(ST_GeogPoint(pickup_longitude, pickup_latitude), 0.1)\n      ) AS pickup_grid,\n      ST_AsText(\n          ST_SnapToGrid(ST_GeogPoint(dropoff_longitude, dropoff_latitude), 0.1)\n      ) AS dropoff_grid,\n      ST_Distance(\n          ST_GeogPoint(pickup_longitude, pickup_latitude), \n          ST_GeogPoint(dropoff_longitude, dropoff_latitude)\n      ) AS euclidean,\n      CONCAT(\n          ST_AsText(ST_SnapToGrid(ST_GeogPoint(pickup_longitude,\n              pickup_latitude), 0.1)), \n          ST_AsText(ST_SnapToGrid(ST_GeogPoint(dropoff_longitude,\n              dropoff_latitude), 0.1))\n      ) AS loc_cross,\n      IF((tips/fare >= 0.2), 1, 0) AS tip_bin,\n      IF(RAND() > 0.8, 'UNASSIGNED', 'TEST') AS data_split\n    FROM\n      taxitrips\n    LIMIT "),
   Seg.hole 4,
   Seg.lit (String.data "\n)\n")]

/-- The `sql_script` template of `part_000`: the exact text of the
triple-quoted SQL string, assembled from its marker-free literal chunks
with the placeholder texts `@PROJECT`, `@DATASET`, `@TABLE`, `@YEAR`,
`@LIMIT` at their (unique) occurrences. -/
def sqlScript000 : String :=
  String.mk (renderFrom pats000 (fun _ => []) 0 segs000)

def segs01 : List Seg :=
  [Seg.lit (String.data "\nCREATE OR REPLACE TABLE `"),
   Seg.hole 0,
   Seg.lit (String.data "."),
   Seg.hole 1,
   Seg.lit (String.data "."),
   Seg.hole 2,
   Seg.lit (String.data "` \nAS (\n    WITH\n      taxitrips AS (\n      SELECT\n        trip_start_timestamp,\n        trip_seconds,\n        trip_miles,\n        payment_type,\n        pickup_longitude,\n        pickup_latitude,\n        dropoff_longitude,\n        dropoff_latitude,\n        tips,\n        fare\n      FROM\n        `bigquery-public-data.chicago_taxi_trips.taxi_trips`\n      WHERE 1=1 \n      AND pickup_longitude IS NOT NULL\n      AND pickup_latitude IS NOT NULL\n      AND dropoff_longitude IS NOT NULL\n      AND dropoff_latitude IS NOT NULL\n      AND trip_miles > 0\n      AND trip_seconds > 0\n      AND fare > 0\n      AND EXTRACT(YEAR FROM trip_start_timestamp) = "),
   Seg.hole 3,
   Seg.lit (String.data "\n    )\n\n    SELECT\n      trip_start_timestamp,\n      EXTRACT(MONTH from trip_start_timestamp) as trip_month,\n      EXTRACT(DAY from trip_start_timestamp) as trip_day,\n      EXTRACT(DAYOFWEEK from trip_start_timestamp) as trip_day_of_week,\n      EXTRACT(HOUR from trip_start_timestamp) as trip_hour,\n      trip_seconds,\n      trip_miles,\n      payment_type,\n      ST_AsText(\n          ST_SnapToGrid(ST_GeogPoint(pickup_longitude, pickup_latitude), 0.1)\n      ) AS pickup_grid,\n      ST_AsText(\n          ST_SnapToGrid(ST_GeogPoint(dropoff_longitude, dropoff_latitude), 0.1)\n      ) AS dropoff_grid,\n      ST_Distance(\n          ST_GeogPoint(pickup_longitude, pickup_latitude), \n          ST_GeogPoint(dropoff_longitude, dropoff_latitude)\n      ) AS euclidean,\n      CONCAT(\n          ST_AsText(ST_SnapToGrid(ST_GeogPoint(pickup_longitude,\n              pickup_latitude), 0.1)), \n          ST_AsText(ST_SnapToGrid(ST_GeogPoint(dropoff_longitude,\n              dropoff_latitude), 0.1))\n      ) AS loc_cross,\n      IF((tips/fare >= 0.2), 1, 0) AS tip_bin,\n      IF(RAND() <= 0.8, 'UNASSIGNED', 'TEST') AS ML_use\n    FROM\n      taxitrips\n    LIMIT "),
   Seg.hole 4,
   Seg.lit (String.data "\n)\n")]

/-- The `sql_script` template of `01-dataset-management`: the exact text of
the triple-quoted SQL string, assembled from its marker-free literal
chunks with the placeholder texts `@PROJECT_ID`, `@DATASET`, `@TABLE`,
`@YEAR`, `@LIMIT` at their (unique) occurrences. -/
def sqlScript01 : String :=
  String.mk (renderFrom pats01 (fun _ => []) 0 segs01)

/-- The `sql_script.replace(...)...replace(...)` chain of `part_000`. -/
def chainReplace000 (p d t y l : String) : String :=
  pyReplace (pyReplace (pyReplace (pyReplace (pyReplace
    sqlScript000 "@PROJECT" p) "@DATASET" d) "@TABLE" t) "@YEAR" y) "@LIMIT" l

/-- The `sql_script.replace(...)...replace(...)` chain of
`01-dataset-management`. -/
def chainReplace01 (p d t y l : String) : String :=
  pyReplace (pyReplace (pyReplace (pyReplace (pyReplace
    sqlScript01 "@PROJECT_ID" p) "@DATASET" d) "@TABLE" t) "@YEAR" y) "@LIMIT" l

end PrepScript

namespace TaxiPrep

/-- How many of the `n` evenly spaced draws `k / n`, `k < n`, a split
function sends to `UNASSIGNED` — the at-scale `UNASSIGNED` fraction of the
split column, with `RAND()` replaced by the uniform grid. -/
def unassignedCount (split : ℚ → String) (n : Nat) : Nat :=
  ((Finset.range n).filter fun k : ℕ => split ((k : ℚ) / (n : ℚ)) = "UNASSIGNED").card

end TaxiPrep

namespace Train

/-- One observable effect of the training-job polling cell: a `print` or a
`time.sleep`. -/
inductive Action where
  | printed (msg : String)
  | slept (seconds : Nat)
deriving DecidableEq

/-- The message the loop prints when it observes a terminal state. -/
def terminalMsg (s : String) : String :=
  if s == "JOB_STATE_SUCCEEDED" then "Training job completed." else "Training job failed!"

/-- Whether a reported job state makes the polling loop break. -/
def isTerminalState (s : String) : Bool :=
  s == "JOB_STATE_SUCCEEDED" || s == "JOB_STATE_FAILED"

/-- The `while True` polling loop of the experimentation notebook, started
at poll index `i` against the job-state trace `states`, cut off after
`fuel` polls: on `JOB_STATE_SUCCEEDED` or `JOB_STATE_FAILED` it prints the
terminal message and breaks; on any other state it prints the state,
sleeps 60 seconds and polls again.  Returns the effects in order and the
index of the poll that observed a terminal state, if any. -/
def pollLoop (states : Nat → String) : Nat → Nat → List Action × Option Nat
  | 0, _ => ([], none)
  | fuel + 1, i =>
    if isTerminalState (states i) then
      ([Action.printed (terminalMsg (states i))], some i)
    else
      let rest := pollLoop states fuel (i + 1)
      (Action.printed ("Training job state is: " ++ states i ++ ".") ::
        Action.slept 60 :: rest.1, rest.2)

/-- The polling cell as a notebook cell: its body prints, sleeps and
breaks, and contains no `raise` and no `try`/`except`, so its outcome is
always a normal completion carrying the printed/slept effects. -/
def trainingPollCell (states : Nat → String) (fuel : Nat) :
    Except String (List Action) :=
  Except.ok (pollLoop states fuel 0).1

/-- Sequential execution of notebook cells (or CI steps): each cell either
completes normally or raises, and a raised error halts the run — no cell
after it is executed and the error is the run's outcome. -/
def runCells : List (Except String Unit) → Except String Unit
  | [] => Except.ok ()
  | c :: rest =>
    match c with
    | Except.error e => Except.error e
    | Except.ok _ => runCells rest

end Train

namespace Monitoring

/-- Embeds `vertex_ai_beta.ThresholdConfig(value=...)`. -/
structure ThresholdConfig where
  value : ℚ
deriving DecidableEq

/-- Embeds `ModelMonitoringObjectiveConfig.TrainingPredictionSkewDetectionConfig`:
the per-feature skew thresholds. -/
structure SkewDetectionConfig where
  skew_thresholds : List (String × ThresholdConfig)
deriving DecidableEq

/-- Embeds `ModelMonitoringObjectiveConfig.PredictionDriftDetectionConfig`: the
per-feature drift thresholds. -/
structure DriftDetectionConfig where
  drift_thresholds : List (String × ThresholdConfig)
deriving DecidableEq

/-- Embeds `ModelMonitoringObjectiveConfig.TrainingDataset`: the baseline training
dataset reference. -/
structure TrainingDataset where
  target_field : String
  bigquery_input_uri : String
deriving DecidableEq

/-- Embeds `vertex_ai_beta.ModelMonitoringObjectiveConfig`. -/
structure ModelMonitoringObjectiveConfig where
  training_dataset : TrainingDataset
  training_prediction_skew_detection_config : SkewDetectionConfig
  prediction_drift_detection_config : DriftDetectionConfig
deriving DecidableEq

/-- Embeds `vertex_ai_beta.ModelDeploymentMonitoringObjectiveConfig`: one
objective, tied to one deployed model. -/
structure DeploymentObjectiveConfig where
  objective_config : ModelMonitoringObjectiveConfig
  deployed_model_id : String
deriving DecidableEq

/-- Embeds `vertex_ai_beta.ModelDeploymentMonitoringJob`, with the configuration
fields the monitoring notebook sets. -/
structure MonitoringJob where
  display_name : String
  endpoint : String
  model_deployment_monitoring_objective_configs : List DeploymentObjectiveConfig
  log_sample_rate : ℚ
  monitor_interval : Nat
  notify_emails : List String
deriving DecidableEq

/-- The dict comprehension
`{feature: ThresholdConfig(value=float(value)) for feature, value in m.items()}`. -/
def buildThresholds (m : List (String × ℚ)) : List (String × ThresholdConfig) :=
  m.map fun fv => (fv.1, ⟨fv.2⟩)

/-- The `objective_template` cell: one objective configuration holding the
training dataset, the skew thresholds and the drift thresholds. -/
def objectiveTemplate (ds : TrainingDataset) (skewT driftT : List (String × ℚ)) :
    ModelMonitoringObjectiveConfig :=
  { training_dataset := ds
    training_prediction_skew_detection_config := ⟨buildThresholds skewT⟩
    prediction_drift_detection_config := ⟨buildThresholds driftT⟩ }

/-- The `deployment_objective_configs` loop: one deep copy of the template
per deployed model id, with `deployed_model_id` set to that id. -/
def buildObjectiveConfigs (template : ModelMonitoringObjectiveConfig)
    (model_ids : List String) : List DeploymentObjectiveConfig :=
  model_ids.map fun id => { objective_config := template, deployed_model_id := id }

/-- The `ModelDeploymentMonitoringJob(...)` construction cell. -/
def buildMonitoringJob (name endpoint_uri : String) (model_ids : List String)
    (skewT driftT : List (String × ℚ)) (ds : TrainingDataset)
    (rate : ℚ) (interval : Nat) (emails : List String) : MonitoringJob :=
  { display_name := name
    endpoint := endpoint_uri
    model_deployment_monitoring_objective_configs :=
      buildObjectiveConfigs (objectiveTemplate ds skewT driftT) model_ids
    log_sample_rate := rate
    monitor_interval := interval
    notify_emails := emails }

/-- Modelled from the spec: the platform side of
`create_model_deployment_monitoring_job` — the monitoring-job service is
not part of this repository; per the spec's contract, creating a job
registers it with the service. -/
def createJobOnService (store : List MonitoringJob) (j : MonitoringJob) :
    List MonitoringJob :=
  store ++ [j]

/-- Modelled from the spec: the platform side of
`list_model_deployment_monitoring_jobs` — listing returns the jobs
registered with the service. -/
def listJobsOnService (store : List MonitoringJob) : List MonitoringJob :=
  store

/-- The notebook's selection cell:
`[entry for entry in monitoring_jobs if entry.display_name == NAME][0]`. -/
def selectJobByName (jobs : List MonitoringJob) (name : String) :
    Option MonitoringJob :=
  (jobs.filter fun j => j.display_name == name).head?

/-- The feature/value view of a stored threshold map, for comparing a
listed configuration with the thresholds it was created from. -/
def thresholdValues (m : List (String × ThresholdConfig)) : List (String × ℚ) :=
  m.map fun fv => (fv.1, fv.2.value)

end Monitoring

namespace BQ

open TaxiPrep

/-- The warehouse: a map from table name to the rows the table holds, if
the table exists. -/
def Warehouse : Type := String → Option (List PreparedRecord)

/-- Embeds `CREATE OR REPLACE TABLE name AS (rows)`: the destination table now
holds exactly `rows`, whether or not it existed before; no other table
changes. -/
def createOrReplaceTable (w : Warehouse) (name : String)
    (rows : List PreparedRecord) : Warehouse :=
  fun n => if n = name then some rows else w n

/-- One data-preparation run against warehouse `w`: execute the prepared
SELECT and write its output over the destination table; a SQL error
propagates. -/
def runDataPrep (w : Warehouse) (dest : String) (geo : GeoFns)
    (split : ℚ → String) (year limit : Nat) (raws : List RawTrip)
    (rnd : Nat → ℚ) : Except String Warehouse :=
  match prepareRecords geo split year limit raws rnd with
  | Except.ok recs => Except.ok (createOrReplaceTable w dest recs)
  | Except.error e => Except.error e

end BQ

namespace Fixtures

open TaxiPrep Monitoring

/-- A concrete instantiation of the warehouse geospatial builtins, for
evaluating the pipeline on sample rows. -/
def wGeo : GeoFns :=
  { snapGridText := fun _ _ => "POINT(-87.7 41.9)", distance := fun _ _ _ _ => 1312 }

/-- A sample trip timestamp. -/
def wTs : Timestamp :=
  { year := 2020, month := 5, day := 12, dayOfWeek := 3, hour := 14 }

/-- A sample raw trip row that passes the WHERE filter (tip ratio 1/4). -/
def wRaw : RawTrip :=
  { trip_start_timestamp := wTs
    trip_seconds := 600
    trip_miles := 2
    payment_type := "Cash"
    pickup_longitude := some 1
    pickup_latitude := some 2
    dropoff_longitude := some 3
    dropoff_latitude := some 4
    tips := 1
    fare := 4 }

/-- The prepared record the projection produces from `wRaw` with draw `1/2`
under the `ML_use` split. -/
def wPrepared : PreparedRecord :=
  { trip_start_timestamp := wTs
    trip_month := 5
    trip_day := 12
    trip_day_of_week := 3
    trip_hour := 14
    trip_seconds := 600
    trip_miles := 2
    payment_type := "Cash"
    pickup_grid := "POINT(-87.7 41.9)"
    dropoff_grid := "POINT(-87.7 41.9)"
    euclidean := 1312
    loc_cross := "POINT(-87.7 41.9)POINT(-87.7 41.9)"
    tip_bin := 1
    data_split := "UNASSIGNED" }

/-- A sample baseline training-dataset reference for monitoring. -/
def wDataset : TrainingDataset :=
  { target_field := "tip_bin", bigquery_input_uri := "bq://p.d.t" }

end Fixtures

namespace Train

theorem runCells_append_error (pre post : List (Except String Unit)) (e : String)
    (h : ∀ c ∈ pre, c = Except.ok ()) :
    runCells (pre ++ Except.error e :: post) = Except.error e := by
  induction pre with
  | nil => rfl
  | cons c rest ih =>
    have hc := h c (List.mem_cons_self c rest)
    subst hc
    show runCells (rest ++ Except.error e :: post) = Except.error e
    exact ih fun x hx => h x (List.mem_cons_of_mem _ hx)

theorem pollLoop_none_of_zero (states : Nat → String) (i : Nat) :
    pollLoop states 0 i = ([], none) := rfl

/-- C7: the training-job polling loop exits in an iteration exactly when
that iteration observes `JOB_STATE_SUCCEEDED` or `JOB_STATE_FAILED`
(globally: it reports the first terminal poll within its horizon, and
nothing otherwise), and a non-terminal iteration prints the state, sleeps
exactly 60 seconds and polls again at the next index. -/
theorem pollLoop_terminal_spec (states : Nat → String) (fuel i : Nat) :
    (∀ j, (pollLoop states fuel i).2 = some j ↔
        (i ≤ j ∧ j < i + fuel ∧ isTerminalState (states j) = true ∧
          ∀ k, i ≤ k → k < j → isTerminalState (states k) = false)) ∧
    pollLoop states (fuel + 1) i =
      (if isTerminalState (states i) then
        ([Action.printed (terminalMsg (states i))], some i)
      else
        (Action.printed ("Training job state is: " ++ states i ++ ".") ::
          Action.slept 60 :: (pollLoop states fuel (i + 1)).1,
         (pollLoop states fuel (i + 1)).2)) := by
  constructor
  · intro j
    induction fuel generalizing i with
    | zero =>
      simp only [pollLoop]
      constructor
      · intro h
        exact absurd h (by simp)
      · rintro ⟨h1, h2, -⟩
        omega
    | succ fuel ih =>
      by_cases hT : isTerminalState (states i) = true
      · simp only [pollLoop, hT, if_true, Option.some.injEq]
        constructor
        · rintro rfl
          exact ⟨le_refl i, by omega, hT, fun k hik hki => by omega⟩
        · rintro ⟨h1, h2, h3, h4⟩
          rcases Nat.eq_or_lt_of_le h1 with h | h
          · exact h
          · have := h4 i (le_refl i) h
            rw [hT] at this
            cases this
      · have hF : isTerminalState (states i) = false := by
          cases h : isTerminalState (states i)
          · rfl
          · exact absurd h hT
        simp only [pollLoop, hF, Bool.false_eq_true, if_false]
        rw [ih (i + 1)]
        constructor
        · rintro ⟨h1, h2, h3, h4⟩
          refine ⟨by omega, by omega, h3, fun k hk1 hk2 => ?_⟩
          rcases Nat.eq_or_lt_of_le hk1 with h | h
          · rw [← h]
            exact hF
          · exact h4 k h hk2
        · rintro ⟨h1, h2, h3, h4⟩
          have hne : i ≠ j := by
            intro h
            rw [← h] at h3
            rw [hF] at h3
            cases h3
          exact ⟨by omega, by omega, h3, fun k hk1 hk2 => h4 k (by omega) hk2⟩
  · by_cases hT : isTerminalState (states i) = true
    · simp [pollLoop, hT]
    · have hF : isTerminalState (states i) = false := by
        cases h : isTerminalState (states i)
        · rfl
        · exact absurd h hT
      simp [pollLoop, hF]

/-- C4 counterexample: a training run whose job reaches the failed terminal
state makes the polling cell print the failure and complete normally — the
cell's outcome is a normal `ok`, not a raised error. -/
theorem training_failure_not_raised :
    trainingPollCell (fun _ => "JOB_STATE_FAILED") 1 =
      Except.ok [Action.printed "Training job failed!"] ∧
    (trainingPollCell (fun _ => "JOB_STATE_FAILED") 1).isOk = true := by
  constructor
  · rfl
  · rfl

/-- C4 (amended): a failure raised by any cell (a SQL job, a deployment or
a monitoring call) propagates and halts the run — no later cell executes —
but the training-job polling loop is the exception: it observes the failed
terminal state, prints it, and completes normally without raising. -/
theorem error_propagation_amended :
    (∀ (pre post : List (Except String Unit)) (e : String),
        (∀ c ∈ pre, c = Except.ok ()) →
        runCells (pre ++ Except.error e :: post) = Except.error e) ∧
    (∀ states fuel, (trainingPollCell states fuel).isOk = true) := by
  constructor
  · exact runCells_append_error
  · intro states fuel
    rfl

/-- Witness for the amended C4 theorem at a concrete run: two successful
cells around a failing SQL query halt with that query's error, and a
polling cell over an always-failed job completes normally. -/
theorem error_propagation_amended_witness :
    runCells [Except.ok (), Except.error "query failed", Except.ok ()] =
      Except.error "query failed" ∧
    (trainingPollCell (fun _ => "JOB_STATE_FAILED") 3).isOk = true := by
  constructor
  · exact error_propagation_amended.1 [Except.ok ()] [Except.ok ()] "query failed"
      (by intro c hc; simpa using hc)
  · exact error_propagation_amended.2 (fun _ => "JOB_STATE_FAILED") 3

end Train

namespace TaxiPrep

theorem sequenceOptions_mem {α : Type} {os : List (Option α)} {l : List α}
    (h : sequenceOptions os = some l) : ∀ a ∈ l, some a ∈ os := by
  induction os generalizing l with
  | nil =>
    simp only [sequenceOptions, Option.some.injEq] at h
    subst h
    simp
  | cons o rest ih =>
    cases o with
    | none => simp [sequenceOptions] at h
    | some a0 =>
      cases hrest : sequenceOptions rest with
      | none => simp [sequenceOptions, hrest] at h
      | some tl =>
        simp only [sequenceOptions, hrest, Option.map_some', Option.some.injEq] at h
        subst h
        intro a ha
        rcases List.mem_cons.mp ha with rfl | ha
        · exact List.mem_cons_self _ _
        · exact List.mem_cons_of_mem _ (ih hrest a ha)

theorem sequenceOptions_isSome {α : Type} (os : List (Option α))
    (h : ∀ o ∈ os, o.isSome = true) : ∃ l, sequenceOptions os = some l := by
  induction os with
  | nil => exact ⟨[], rfl⟩
  | cons o rest ih =>
    obtain ⟨a, ha⟩ := Option.isSome_iff_exists.mp (h o (List.mem_cons_self _ _))
    obtain ⟨l, hl⟩ := ih fun x hx => h x (List.mem_cons_of_mem _ hx)
    subst ha
    exact ⟨a :: l, by simp [sequenceOptions, hl]⟩

theorem taxitripsFilter_eq_true {year : Nat} {r : RawTrip} :
    taxitripsFilter year r = true ↔
      (r.pickup_longitude.isSome = true ∧ r.pickup_latitude.isSome = true ∧
       r.dropoff_longitude.isSome = true ∧ r.dropoff_latitude.isSome = true ∧
       0 < r.trip_miles ∧ 0 < r.trip_seconds ∧ 0 < r.fare ∧
       r.trip_start_timestamp.year = year) := by
  simp [taxitripsFilter, Bool.and_eq_true, and_assoc]

theorem projectRow_some_inv {geo : GeoFns} {split : ℚ → String} {r : RawTrip}
    {rnd : ℚ} {p : PreparedRecord}
    (h : projectRow geo split r rnd = some p) :
    p.trip_miles = r.trip_miles ∧ p.trip_seconds = r.trip_seconds ∧
    p.data_split = split rnd ∧
    p.tip_bin = (if (0.2 : ℚ) ≤ r.tips / r.fare then 1 else 0) ∧
    r.fare ≠ 0 := by
  unfold projectRow at h
  cases hpl : r.pickup_longitude with
  | none => rw [hpl] at h; cases h
  | some plon =>
  cases hpa : r.pickup_latitude with
  | none => rw [hpl, hpa] at h; cases h
  | some plat =>
  cases hdl : r.dropoff_longitude with
  | none => rw [hpl, hpa, hdl] at h; cases h
  | some dlon =>
  cases hda : r.dropoff_latitude with
  | none => rw [hpl, hpa, hdl, hda] at h; cases h
  | some dlat =>
    rw [hpl, hpa, hdl, hda] at h
    unfold safeDiv at h
    by_cases hf : r.fare = 0
    · rw [if_pos hf] at h
      cases h
    · rw [if_neg hf] at h
      simp only [Option.some.injEq] at h
      subst h
      exact ⟨rfl, rfl, rfl, rfl, hf⟩

theorem projectRow_isSome_of_filter {geo : GeoFns} {split : ℚ → String}
    {year : Nat} {r : RawTrip} (rnd : ℚ)
    (h : taxitripsFilter year r = true) :
    ∃ p, projectRow geo split r rnd = some p := by
  obtain ⟨h1, h2, h3, h4, -, -, h7, -⟩ := taxitripsFilter_eq_true.mp h
  obtain ⟨plon, hplon⟩ := Option.isSome_iff_exists.mp h1
  obtain ⟨plat, hplat⟩ := Option.isSome_iff_exists.mp h2
  obtain ⟨dlon, hdlon⟩ := Option.isSome_iff_exists.mp h3
  obtain ⟨dlat, hdlat⟩ := Option.isSome_iff_exists.mp h4
  unfold projectRow safeDiv
  rw [hplon, hplat, hdlon, hdlat, if_neg (ne_of_gt h7)]
  exact ⟨_, rfl⟩

theorem prepareRecords_ok_mem {geo : GeoFns} {split : ℚ → String}
    {year limit : Nat} {raws : List RawTrip} {rnd : Nat → ℚ}
    {recs : List PreparedRecord}
    (h : prepareRecords geo split year limit raws rnd = Except.ok recs) :
    ∀ p ∈ recs, ∃ r rd, r ∈ raws ∧ taxitripsFilter year r = true ∧
      projectRow geo split r rd = some p := by
  intro p hp
  unfold prepareRecords at h
  cases hs : sequenceOptions ((raws.filter (taxitripsFilter year)).enum.map
      fun q => projectRow geo split q.2 (rnd q.1)) with
  | none => rw [hs] at h; cases h
  | some l =>
    rw [hs] at h
    simp only [Except.ok.injEq] at h
    subst h
    have hpl : p ∈ l := List.mem_of_mem_take hp
    obtain ⟨q, hq, hfq⟩ := List.mem_map.mp (sequenceOptions_mem hs p hpl)
    have hq2 : q.2 ∈ raws.filter (taxitripsFilter year) := by
      rw [List.enum_eq_zip_range] at hq
      exact (List.of_mem_zip hq).2
    obtain ⟨hraw, hfil⟩ := List.mem_filter.mp hq2
    exact ⟨q.2, rnd q.1, hraw, hfil, hfq⟩

theorem prepareRecords_ok_exists (geo : GeoFns) (split : ℚ → String)
    (year limit : Nat) (raws : List RawTrip) (rnd : Nat → ℚ) :
    ∃ recs, prepareRecords geo split year limit raws rnd = Except.ok recs := by
  have hall : ∀ o ∈ (raws.filter (taxitripsFilter year)).enum.map
      (fun q => projectRow geo split q.2 (rnd q.1)), o.isSome = true := by
    intro o ho
    obtain ⟨q, hq, rfl⟩ := List.mem_map.mp ho
    have hq2 : q.2 ∈ raws.filter (taxitripsFilter year) := by
      rw [List.enum_eq_zip_range] at hq
      exact (List.of_mem_zip hq).2
    obtain ⟨p, hp⟩ := projectRow_isSome_of_filter (rnd q.1)
      (List.mem_filter.mp hq2).2
    rw [hp]
    rfl
  obtain ⟨l, hl⟩ := sequenceOptions_isSome _ hall
  refine ⟨l.take limit, ?_⟩
  unfold prepareRecords
  rw [hl]

/-- C10: the `tips/fare` division of the `tip_bin` expression never
divides by zero — for any inputs, the whole prepared SELECT runs without a
guarded-projection error, because every row reaching the projection passed
the `fare > 0` filter of the WHERE clause. -/
theorem tips_fare_division_safe (geo : GeoFns) (split : ℚ → String)
    (year limit : Nat) (raws : List RawTrip) (rnd : Nat → ℚ) :
    ∃ recs, prepareRecords geo split year limit raws rnd = Except.ok recs :=
  prepareRecords_ok_exists geo split year limit raws rnd

/-- C3: every record of the prepared table has `trip_miles > 0` and
`trip_seconds > 0`, and arises from a raw row that passed the WHERE filter
— so that row had non-null pickup and dropoff coordinates and positive
distance, duration and fare before any derived feature was computed. -/
theorem prepared_records_pass_filter (geo : GeoFns) (split : ℚ → String)
    (year limit : Nat) (raws : List RawTrip) (rnd : Nat → ℚ)
    (recs : List PreparedRecord)
    (h : prepareRecords geo split year limit raws rnd = Except.ok recs) :
    ∀ p ∈ recs, 0 < p.trip_miles ∧ 0 < p.trip_seconds ∧
      ∃ r rd, r ∈ raws ∧ taxitripsFilter year r = true ∧
        r.pickup_longitude.isSome = true ∧ r.pickup_latitude.isSome = true ∧
        r.dropoff_longitude.isSome = true ∧ r.dropoff_latitude.isSome = true ∧
        0 < r.trip_miles ∧ 0 < r.trip_seconds ∧ 0 < r.fare ∧
        projectRow geo split r rd = some p := by
  intro p hp
  obtain ⟨r, rd, hraw, hfil, hproj⟩ := prepareRecords_ok_mem h p hp
  obtain ⟨hm, hsec, -, -, -⟩ := projectRow_some_inv hproj
  obtain ⟨c1, c2, c3, c4, hmi, hse, hfa, -⟩ := taxitripsFilter_eq_true.mp hfil
  exact ⟨by rw [hm]; exact hmi, by rw [hsec]; exact hse,
    r, rd, hraw, hfil, c1, c2, c3, c4, hmi, hse, hfa, hproj⟩

theorem wPipeline_eval :
    prepareRecords Fixtures.wGeo mlUseAssign 2020 10 [Fixtures.wRaw]
      (fun _ => 1/2) = Except.ok [Fixtures.wPrepared] := by
  norm_num [prepareRecords, sequenceOptions, projectRow, safeDiv, taxitripsFilter,
    mlUseAssign, Fixtures.wRaw, Fixtures.wGeo, Fixtures.wTs, Fixtures.wPrepared,
    List.enum, List.enumFrom, List.filter]
  rfl

/-- Witness for C3 at a concrete one-row pipeline run. -/
theorem prepared_records_pass_filter_witness :
    0 < Fixtures.wPrepared.trip_miles ∧ 0 < Fixtures.wPrepared.trip_seconds ∧
      ∃ r rd, r ∈ [Fixtures.wRaw] ∧ taxitripsFilter 2020 r = true ∧
        r.pickup_longitude.isSome = true ∧ r.pickup_latitude.isSome = true ∧
        r.dropoff_longitude.isSome = true ∧ r.dropoff_latitude.isSome = true ∧
        0 < r.trip_miles ∧ 0 < r.trip_seconds ∧ 0 < r.fare ∧
        projectRow Fixtures.wGeo mlUseAssign r rd = some Fixtures.wPrepared :=
  prepared_records_pass_filter Fixtures.wGeo mlUseAssign 2020 10 [Fixtures.wRaw]
    (fun _ => 1/2) [Fixtures.wPrepared] wPipeline_eval Fixtures.wPrepared
    (List.mem_singleton.mpr rfl)

/-- C2: the label of every prepared record is binary and equals 1 exactly
when the source row satisfies `tips / fare >= 0.2`, else 0. -/
theorem tip_bin_spec (geo : GeoFns) (split : ℚ → String)
    (year limit : Nat) (raws : List RawTrip) (rnd : Nat → ℚ)
    (recs : List PreparedRecord)
    (h : prepareRecords geo split year limit raws rnd = Except.ok recs) :
    ∀ p ∈ recs, ∃ r rd, r ∈ raws ∧ taxitripsFilter year r = true ∧
      projectRow geo split r rd = some p ∧
      (p.tip_bin = 1 ↔ (0.2 : ℚ) ≤ r.tips / r.fare) ∧
      (p.tip_bin = 0 ↔ ¬ (0.2 : ℚ) ≤ r.tips / r.fare) := by
  intro p hp
  obtain ⟨r, rd, hraw, hfil, hproj⟩ := prepareRecords_ok_mem h p hp
  obtain ⟨-, -, -, htb, -⟩ := projectRow_some_inv hproj
  refine ⟨r, rd, hraw, hfil, hproj, ?_, ?_⟩
  · rw [htb]
    split_ifs with hle
    · simp [hle]
    · simp [hle]
  · rw [htb]
    split_ifs with hle
    · simp [hle]
    · simp [hle]

/-- Witness for C2 at a concrete one-row pipeline run (tip ratio 1/4). -/
theorem tip_bin_spec_witness :
    ∃ r rd, r ∈ [Fixtures.wRaw] ∧ taxitripsFilter 2020 r = true ∧
      projectRow Fixtures.wGeo mlUseAssign r rd = some Fixtures.wPrepared ∧
      (Fixtures.wPrepared.tip_bin = 1 ↔ (0.2 : ℚ) ≤ r.tips / r.fare) ∧
      (Fixtures.wPrepared.tip_bin = 0 ↔ ¬ (0.2 : ℚ) ≤ r.tips / r.fare) :=
  tip_bin_spec Fixtures.wGeo mlUseAssign 2020 10 [Fixtures.wRaw]
    (fun _ => 1/2) [Fixtures.wPrepared] wPipeline_eval Fixtures.wPrepared
    (List.mem_singleton.mpr rfl)

end TaxiPrep

namespace TaxiPrep

theorem mlUseAssign_eq_unassigned (r : ℚ) :
    mlUseAssign r = "UNASSIGNED" ↔ r ≤ 0.8 := by
  unfold mlUseAssign
  split_ifs with h
  · simp [h]
  · constructor
    · intro hh
      exact absurd hh (by decide)
    · intro hh
      exact absurd hh h

theorem dataSplitAssign_eq_unassigned (r : ℚ) :
    dataSplitAssign r = "UNASSIGNED" ↔ 0.8 < r := by
  unfold dataSplitAssign
  split_ifs with h
  · simp [h]
  · constructor
    · intro hh
      exact absurd hh (by decide)
    · intro hh
      exact absurd hh h

theorem unassignedCount_mlUse (m : Nat) :
    unassignedCount mlUseAssign (5 * (m + 1)) = 4 * (m + 1) + 1 := by
  unfold unassignedCount
  have hcast : ((5 * (m + 1) : ℕ) : ℚ) = 5 * ((m : ℚ) + 1) := by
    push_cast
    ring
  have key : ∀ k : ℕ,
      (mlUseAssign ((k : ℚ) / ((5 * (m + 1) : ℕ) : ℚ)) = "UNASSIGNED") ↔
        k ≤ 4 * (m + 1) := by
    intro k
    rw [mlUseAssign_eq_unassigned, hcast, div_le_iff (by positivity)]
    rw [show (0.8 : ℚ) * (5 * ((m : ℚ) + 1)) = ((4 * (m + 1) : ℕ) : ℚ) by
      push_cast
      norm_num
      ring]
    exact Nat.cast_le
  rw [Finset.filter_congr fun k _ => key k]
  have hset : (Finset.range (5 * (m + 1))).filter (fun k => k ≤ 4 * (m + 1)) =
      Finset.range (4 * (m + 1) + 1) := by
    ext k
    simp only [Finset.mem_filter, Finset.mem_range]
    omega
  rw [hset, Finset.card_range]

theorem unassignedCount_dataSplit (m : Nat) :
    unassignedCount dataSplitAssign (5 * (m + 1)) = m := by
  unfold unassignedCount
  have hcast : ((5 * (m + 1) : ℕ) : ℚ) = 5 * ((m : ℚ) + 1) := by
    push_cast
    ring
  have key : ∀ k : ℕ,
      (dataSplitAssign ((k : ℚ) / ((5 * (m + 1) : ℕ) : ℚ)) = "UNASSIGNED") ↔
        4 * (m + 1) < k := by
    intro k
    rw [dataSplitAssign_eq_unassigned, hcast, lt_div_iff (by positivity)]
    rw [show (0.8 : ℚ) * (5 * ((m : ℚ) + 1)) = ((4 * (m + 1) : ℕ) : ℚ) by
      push_cast
      norm_num
      ring]
    exact Nat.cast_lt
  rw [Finset.filter_congr fun k _ => key k]
  have hset : (Finset.range (5 * (m + 1))).filter (fun k => 4 * (m + 1) < k) =
      Finset.Ico (4 * (m + 1) + 1) (5 * (m + 1)) := by
    ext k
    simp only [Finset.mem_filter, Finset.mem_range, Finset.mem_Ico]
    omega
  rw [hset, Nat.card_Ico]
  omega

/-- C1: in both data-preparation notebooks every split value is
`UNASSIGNED` or `TEST`; but while the `01-dataset-management` split
(`RAND() <= 0.8` mapped to `UNASSIGNED`) gives the `UNASSIGNED` outcome on
`4(m+1)+1` of `5(m+1)` evenly spaced draws (fraction ≈ 0.8), the
`part_000` split (`RAND() > 0.8` mapped to `UNASSIGNED`) gives it on only
`m` of `5(m+1)` such draws (fraction ≈ 0.2, not 0.8); in particular the
draw `r = 1/2` is assigned `TEST` by `part_000`, contradicting that
notebook's own markdown, which promises an 80% `UNASSIGNED` share. -/
theorem split_assignment_analysis :
    (∀ r : ℚ, (dataSplitAssign r = "UNASSIGNED" ∨ dataSplitAssign r = "TEST") ∧
      (mlUseAssign r = "UNASSIGNED" ∨ mlUseAssign r = "TEST")) ∧
    (∀ m : ℕ, unassignedCount mlUseAssign (5 * (m + 1)) = 4 * (m + 1) + 1 ∧
      unassignedCount dataSplitAssign (5 * (m + 1)) = m) ∧
    dataSplitAssign (1/2) = "TEST" ∧ mlUseAssign (1/2) = "UNASSIGNED" := by
  refine ⟨?_, fun m => ⟨unassignedCount_mlUse m, unassignedCount_dataSplit m⟩, ?_, ?_⟩
  · intro r
    constructor
    · unfold dataSplitAssign
      split_ifs
      · exact Or.inl rfl
      · exact Or.inr rfl
    · unfold mlUseAssign
      split_ifs
      · exact Or.inl rfl
      · exact Or.inr rfl
  · unfold dataSplitAssign
    rw [if_neg (by norm_num)]
  · unfold mlUseAssign
    rw [if_pos (by norm_num)]

end TaxiPrep

namespace Monitoring

theorem thresholdValues_buildThresholds (m : List (String × ℚ)) :
    thresholdValues (buildThresholds m) = m := by
  induction m with
  | nil => rfl
  | cons fv rest ih =>
    show (fv.1, fv.2) :: thresholdValues (buildThresholds rest) = fv :: rest
    rw [ih, Prod.mk.eta]

theorem map_deployedId_buildObjectiveConfigs
    (template : ModelMonitoringObjectiveConfig) (ids : List String) :
    (buildObjectiveConfigs template ids).map (fun oc => oc.deployed_model_id) = ids := by
  induction ids with
  | nil => rfl
  | cons id rest ih =>
    show id :: (buildObjectiveConfigs template rest).map (fun oc => oc.deployed_model_id) =
      id :: rest
    rw [ih]

/-- C6: creating a monitoring job built from given per-feature skew and
drift thresholds and then selecting, among the listed jobs, the one with
that display name (fresh in the store) returns exactly the created job,
and each of its objective configurations carries exactly the given
threshold values for the same features. -/
theorem monitoring_roundtrip (store : List MonitoringJob)
    (name endpoint_uri : String) (model_ids : List String)
    (skewT driftT : List (String × ℚ)) (ds : TrainingDataset)
    (rate : ℚ) (interval : Nat) (emails : List String)
    (hfresh : ∀ j ∈ store, j.display_name ≠ name) :
    selectJobByName
        (listJobsOnService
          (createJobOnService store
            (buildMonitoringJob name endpoint_uri model_ids skewT driftT ds
              rate interval emails)))
        name =
      some (buildMonitoringJob name endpoint_uri model_ids skewT driftT ds
        rate interval emails) ∧
    ∀ oc ∈ (buildMonitoringJob name endpoint_uri model_ids skewT driftT ds
        rate interval emails).model_deployment_monitoring_objective_configs,
      thresholdValues
          oc.objective_config.training_prediction_skew_detection_config.skew_thresholds
        = skewT ∧
      thresholdValues
          oc.objective_config.prediction_drift_detection_config.drift_thresholds
        = driftT := by
  constructor
  · unfold selectJobByName listJobsOnService createJobOnService
    rw [List.filter_append]
    have h1 : store.filter (fun j => j.display_name == name) = [] := by
      rw [List.filter_eq_nil]
      intro j hj
      simp [hfresh j hj]
    rw [h1]
    simp [buildMonitoringJob]
  · intro oc hoc
    unfold buildMonitoringJob buildObjectiveConfigs at hoc
    obtain ⟨id, hid, rfl⟩ := List.mem_map.mp hoc
    exact ⟨thresholdValues_buildThresholds skewT,
      thresholdValues_buildThresholds driftT⟩

/-- Witness for C6: an empty service store, the notebook's display name,
two deployed models and single-feature threshold maps. -/
theorem monitoring_roundtrip_witness :
    selectJobByName
        (listJobsOnService
          (createJobOnService []
            (buildMonitoringJob "monitor-endpoint" "ep-uri" ["m1", "m2"]
              [("trip_miles", 0.3)] [("trip_miles", 0.3)] Fixtures.wDataset
              0.8 3600 ["a@b.c"])))
        "monitor-endpoint" =
      some (buildMonitoringJob "monitor-endpoint" "ep-uri" ["m1", "m2"]
        [("trip_miles", 0.3)] [("trip_miles", 0.3)] Fixtures.wDataset
        0.8 3600 ["a@b.c"]) ∧
    ∀ oc ∈ (buildMonitoringJob "monitor-endpoint" "ep-uri" ["m1", "m2"]
        [("trip_miles", 0.3)] [("trip_miles", 0.3)] Fixtures.wDataset
        0.8 3600 ["a@b.c"]).model_deployment_monitoring_objective_configs,
      thresholdValues
          oc.objective_config.training_prediction_skew_detection_config.skew_thresholds
        = [("trip_miles", 0.3)] ∧
      thresholdValues
          oc.objective_config.prediction_drift_detection_config.drift_thresholds
        = [("trip_miles", 0.3)] :=
  monitoring_roundtrip [] "monitor-endpoint" "ep-uri" ["m1", "m2"]
    [("trip_miles", 0.3)] [("trip_miles", 0.3)] Fixtures.wDataset
    0.8 3600 ["a@b.c"] (by intro j hj; cases hj)

/-- C9: a constructed monitoring job references exactly the one endpoint it
was built for and holds exactly one objective configuration per deployed
model id, in order; the ids are pairwise distinct whenever the deployed
model ids are, and all objectives share the same objective template (hence
the same skew and drift thresholds). -/
theorem monitoring_job_objectives_spec (name endpoint_uri : String)
    (model_ids : List String) (skewT driftT : List (String × ℚ))
    (ds : TrainingDataset) (rate : ℚ) (interval : Nat) (emails : List String)
    (hnodup : model_ids.Nodup) :
    (buildMonitoringJob name endpoint_uri model_ids skewT driftT ds rate
      interval emails).endpoint = endpoint_uri ∧
    ((buildMonitoringJob name endpoint_uri model_ids skewT driftT ds rate
      interval emails).model_deployment_monitoring_objective_configs.map
        fun oc => oc.deployed_model_id) = model_ids ∧
    ((buildMonitoringJob name endpoint_uri model_ids skewT driftT ds rate
      interval emails).model_deployment_monitoring_objective_configs.map
        fun oc => oc.deployed_model_id).Nodup ∧
    ∀ oc ∈ (buildMonitoringJob name endpoint_uri model_ids skewT driftT ds
        rate interval emails).model_deployment_monitoring_objective_configs,
      oc.objective_config = objectiveTemplate ds skewT driftT := by
  have hmap : ((buildMonitoringJob name endpoint_uri model_ids skewT driftT ds
      rate interval emails).model_deployment_monitoring_objective_configs.map
        fun oc => oc.deployed_model_id) = model_ids :=
    map_deployedId_buildObjectiveConfigs (objectiveTemplate ds skewT driftT) model_ids
  refine ⟨rfl, hmap, ?_, ?_⟩
  · rw [hmap]
    exact hnodup
  · intro oc hoc
    unfold buildMonitoringJob buildObjectiveConfigs at hoc
    obtain ⟨id, hid, rfl⟩ := List.mem_map.mp hoc
    rfl

/-- Witness for C9 with two distinct deployed model ids. -/
theorem monitoring_job_objectives_spec_witness :
    (buildMonitoringJob "monitor-endpoint" "ep-uri" ["m1", "m2"]
      [("trip_miles", 0.3)] [("euclidean", 0.3)] Fixtures.wDataset
      0.8 3600 ["a@b.c"]).endpoint = "ep-uri" ∧
    ((buildMonitoringJob "monitor-endpoint" "ep-uri" ["m1", "m2"]
      [("trip_miles", 0.3)] [("euclidean", 0.3)] Fixtures.wDataset
      0.8 3600 ["a@b.c"]).model_deployment_monitoring_objective_configs.map
        fun oc => oc.deployed_model_id) = ["m1", "m2"] ∧
    ((buildMonitoringJob "monitor-endpoint" "ep-uri" ["m1", "m2"]
      [("trip_miles", 0.3)] [("euclidean", 0.3)] Fixtures.wDataset
      0.8 3600 ["a@b.c"]).model_deployment_monitoring_objective_configs.map
        fun oc => oc.deployed_model_id).Nodup ∧
    ∀ oc ∈ (buildMonitoringJob "monitor-endpoint" "ep-uri" ["m1", "m2"]
        [("trip_miles", 0.3)] [("euclidean", 0.3)] Fixtures.wDataset
        0.8 3600 ["a@b.c"]).model_deployment_monitoring_objective_configs,
      oc.objective_config =
        objectiveTemplate Fixtures.wDataset [("trip_miles", 0.3)] [("euclidean", 0.3)] :=
  monitoring_job_objectives_spec "monitor-endpoint" "ep-uri" ["m1", "m2"]
    [("trip_miles", 0.3)] [("euclidean", 0.3)] Fixtures.wDataset
    0.8 3600 ["a@b.c"] (by simp)

end Monitoring

namespace BQ

open TaxiPrep

/-- C8: a data-preparation run overwrites the destination table — after the
run the destination holds exactly this run's records, the outcome does not
depend on whatever rows the table held before, and no other table
changes. -/
theorem dataprep_overwrites_destination (w : Warehouse) (dest : String)
    (old : List PreparedRecord) (geo : GeoFns) (split : ℚ → String)
    (year limit : Nat) (raws : List RawTrip) (rnd : Nat → ℚ) :
    runDataPrep (createOrReplaceTable w dest old) dest geo split year limit raws rnd =
      runDataPrep w dest geo split year limit raws rnd ∧
    ∃ recs, prepareRecords geo split year limit raws rnd = Except.ok recs ∧
      runDataPrep w dest geo split year limit raws rnd =
        Except.ok (createOrReplaceTable w dest recs) ∧
      createOrReplaceTable w dest recs dest = some recs ∧
      ∀ other, other ≠ dest → createOrReplaceTable w dest recs other = w other := by
  obtain ⟨recs, hrecs⟩ := prepareRecords_ok_exists geo split year limit raws rnd
  constructor
  · unfold runDataPrep
    rw [hrecs]
    show Except.ok (createOrReplaceTable (createOrReplaceTable w dest old) dest recs) =
      Except.ok (createOrReplaceTable w dest recs)
    congr 1
    funext n
    unfold createOrReplaceTable
    by_cases h : n = dest
    · simp [h]
    · simp [h]
  · refine ⟨recs, hrecs, ?_, ?_, ?_⟩
    · unfold runDataPrep
      rw [hrecs]
    · unfold createOrReplaceTable
      simp
    · intro other hne
      unfold createOrReplaceTable
      simp [hne]

end BQ

namespace Subst

theorem replaceAll_nil (pat rep : List Char) : replaceAll pat rep [] = [] := by
  rw [replaceAll]

theorem replaceAll_cons (pat rep : List Char) (c : Char) (s : List Char) :
    replaceAll pat rep (c :: s) =
      if pat.isPrefixOf (c :: s) && !pat.isEmpty then
        rep ++ replaceAll pat rep (List.drop (pat.length - 1) s)
      else
        c :: replaceAll pat rep s := by
  rw [replaceAll]

theorem multiSubst_nil (subs : List (List Char × List Char)) :
    multiSubst subs [] = [] := by
  rw [multiSubst]

theorem multiSubst_cons (subs : List (List Char × List Char)) (c : Char)
    (s : List Char) :
    multiSubst subs (c :: s) =
      match subs.find? (fun pr => pr.1.isPrefixOf (c :: s) && !pr.1.isEmpty) with
      | some pr => pr.2 ++ multiSubst subs (List.drop (pr.1.length - 1) s)
      | none => c :: multiSubst subs s := by
  rw [multiSubst]

theorem atFree_cons {c : Char} {s : List Char} (h : atFree (c :: s) = true) :
    c ≠ atChar ∧ atFree s = true := by
  unfold atFree at *
  rw [List.contains_cons] at h
  simp only [Bool.not_or, Bool.and_eq_true, Bool.not_eq_eq_eq_not, Bool.not_true,
    beq_eq_false_iff_ne] at h
  refine ⟨fun hc => h.1 hc.symm, ?_⟩
  simp only [Bool.not_eq_eq_eq_not, Bool.not_true]
  exact h.2

theorem isPrefixOf_cons_false {ptl : List Char} {c : Char} (s : List Char)
    (hc : c ≠ atChar) :
    (atChar :: ptl).isPrefixOf (c :: s) = false := by
  show ((atChar == c) && ptl.isPrefixOf s) = false
  rw [beq_eq_false_iff_ne.mpr (Ne.symm hc)]
  simp

theorem patShape_spec {pat : List Char} (h : patShape pat = true) :
    ∃ ptl, pat = atChar :: ptl ∧ atFree ptl = true := by
  cases pat with
  | nil => cases h
  | cons c tl =>
    unfold patShape at h
    simp only [Bool.and_eq_true, beq_iff_eq] at h
    exact ⟨tl, by rw [h.1], h.2⟩

theorem replaceAll_atFree_append {pat : List Char} {ptl : List Char}
    (rep : List Char) (hpat : pat = atChar :: ptl) :
    ∀ (s t : List Char), atFree s = true →
      replaceAll pat rep (s ++ t) = s ++ replaceAll pat rep t := by
  intro s
  induction s with
  | nil => intro t _; simp
  | cons c s ih =>
    intro t hfree
    obtain ⟨hc, hfree2⟩ := atFree_cons hfree
    rw [List.cons_append, replaceAll_cons, hpat, isPrefixOf_cons_false _ hc]
    simp only [Bool.false_and, Bool.false_eq_true, if_false]
    rw [← hpat, ih t hfree2]
    rfl

theorem replaceAll_pat_append {pat : List Char} (rep t : List Char)
    (hne : pat ≠ []) :
    replaceAll pat rep (pat ++ t) = rep ++ replaceAll pat rep t := by
  cases pat with
  | nil => exact absurd rfl hne
  | cons p0 ptl =>
    rw [List.cons_append, replaceAll_cons]
    have hpre : (p0 :: ptl).isPrefixOf (p0 :: (ptl ++ t)) = true := by
      rw [List.isPrefixOf_iff_prefix]
      exact List.prefix_append _ _
    rw [hpre]
    simp only [List.isEmpty_cons, Bool.not_false, Bool.true_and, if_true]
    congr 1
    have : (p0 :: ptl).length - 1 = ptl.length := by simp
    rw [this, List.drop_left]

theorem prefix_cases {l1 l2 t : List Char} (h : l1 <+: l2 ++ t) :
    l1 <+: l2 ∨ l2 <+: l1 :=
  List.prefix_or_prefix_of_prefix h (List.prefix_append _ _)

theorem isPrefixOf_append_false {pat pat' t : List Char}
    (h1 : (pat).isPrefixOf pat' = false) (h2 : (pat').isPrefixOf pat = false) :
    pat.isPrefixOf (pat' ++ t) = false := by
  rw [Bool.eq_false_iff]
  intro hpre
  rw [List.isPrefixOf_iff_prefix] at hpre
  rcases prefix_cases hpre with h | h
  · rw [← List.isPrefixOf_iff_prefix, h1] at h
    cases h
  · rw [← List.isPrefixOf_iff_prefix, h2] at h
    cases h

theorem replaceAll_skip_other {pat : List Char} {ptl ptl' : List Char}
    (pat' rep t : List Char)
    (hpat : pat = atChar :: ptl) (hpat2 : pat' = atChar :: ptl')
    (hfree2 : atFree ptl' = true)
    (h1 : pat.isPrefixOf pat' = false) (h2 : (pat').isPrefixOf pat = false) :
    replaceAll pat rep (pat' ++ t) = pat' ++ replaceAll pat rep t := by
  have hnp : pat.isPrefixOf (pat' ++ t) = false := isPrefixOf_append_false h1 h2
  subst hpat2
  rw [List.cons_append] at hnp
  rw [List.cons_append, replaceAll_cons, hnp]
  simp only [Bool.false_and, Bool.false_eq_true, if_false]
  rw [replaceAll_atFree_append rep hpat ptl' t hfree2]
  rfl

theorem SubstSetup.tail {pats vals : Nat → List Char} {n : Nat} {seg : Seg}
    {segs : List Seg} (st : SubstSetup pats vals n (seg :: segs)) :
    SubstSetup pats vals n segs :=
  ⟨fun s hs => st.litsAtFree s (List.mem_cons_of_mem _ hs), st.valsAtFree,
    st.patsShape, st.patsNoPrefix,
    fun s hs => st.holesLt s (List.mem_cons_of_mem _ hs)⟩

theorem replaceAll_renderFrom {pats vals : Nat → List Char} {n : Nat}
    {segs : List Seg} (st : SubstSetup pats vals n segs) {k : Nat} (hk : k < n) :
    replaceAll (pats k) (vals k) (renderFrom pats vals k segs) =
      renderFrom pats vals (k + 1) segs := by
  obtain ⟨ptlk, hpatk, hfreek⟩ := patShape_spec (st.patsShape k hk)
  induction segs with
  | nil => simp [renderFrom, replaceAll_nil]
  | cons seg rest ih =>
    have stt : SubstSetup pats vals n rest := SubstSetup.tail st
    cases seg with
    | lit s =>
      have hfree : atFree s = true := by
        have := st.litsAtFree (Seg.lit s) (List.mem_cons_self _ _)
        simpa [segLitAtFree] using this
      simp only [renderFrom]
      rw [replaceAll_atFree_append (vals k) hpatk s _ hfree, ih stt]
    | hole i =>
      have hi : i < n := by
        have := st.holesLt (Seg.hole i) (List.mem_cons_self _ _)
        simpa [segHoleLt] using this
      rcases lt_trichotomy i k with hik | heq | hki
      · simp only [renderFrom, if_pos hik, if_pos (Nat.lt_succ_of_lt hik)]
        rw [replaceAll_atFree_append (vals k) hpatk _ _ (st.valsAtFree i hi),
          ih stt]
      · subst heq
        simp only [renderFrom, if_neg (lt_irrefl i), if_pos (Nat.lt_succ_self i)]
        rw [replaceAll_pat_append _ _ (by rw [hpatk]; exact List.cons_ne_nil _ _),
          ih stt]
      · obtain ⟨ptli, hpati, hfreei⟩ := patShape_spec (st.patsShape i hi)
        simp only [renderFrom, if_neg (by omega : ¬ i < k),
          if_neg (by omega : ¬ i < k + 1)]
        rw [replaceAll_skip_other (pats i) (vals k) _ hpatk hpati hfreei
          (st.patsNoPrefix k hk i hi (by omega))
          (st.patsNoPrefix i hi k hk (by omega)), ih stt]

theorem chainOf_renderFrom {pats vals : Nat → List Char} {n : Nat}
    {segs : List Seg} (st : SubstSetup pats vals n segs) :
    ∀ k, k ≤ n → chainOf pats vals k (renderFrom pats vals 0 segs) =
      renderFrom pats vals k segs := by
  intro k
  induction k with
  | zero => intro _; rfl
  | succ k ih =>
    intro hk
    show replaceAll (pats k) (vals k)
        (chainOf pats vals k (renderFrom pats vals 0 segs)) = _
    rw [ih (by omega)]
    exact replaceAll_renderFrom st (by omega)

theorem subsOf_shape {pats vals : Nat → List Char} {n : Nat}
    (hshape : ∀ i, i < n → patShape (pats i) = true) :
    ∀ pr ∈ subsOf pats vals n, ∃ ptl, pr.1 = atChar :: ptl := by
  intro pr hpr
  unfold subsOf at hpr
  obtain ⟨i, hi, rfl⟩ := List.mem_map.mp hpr
  obtain ⟨ptl, hp, -⟩ := patShape_spec (hshape i (List.mem_range.mp hi))
  exact ⟨ptl, hp⟩

theorem multiSubst_atFree_append {subs : List (List Char × List Char)}
    (hsubs : ∀ pr ∈ subs, ∃ ptl, pr.1 = atChar :: ptl) :
    ∀ (s t : List Char), atFree s = true →
      multiSubst subs (s ++ t) = s ++ multiSubst subs t := by
  intro s
  induction s with
  | nil => intro t _; simp
  | cons c s ih =>
    intro t hfree
    obtain ⟨hc, hfree2⟩ := atFree_cons hfree
    rw [List.cons_append, multiSubst_cons]
    have hnone : subs.find?
        (fun pr => pr.1.isPrefixOf (c :: (s ++ t)) && !pr.1.isEmpty) = none := by
      rw [List.find?_eq_none]
      intro pr hpr
      obtain ⟨ptl, hp⟩ := hsubs pr hpr
      rw [hp, isPrefixOf_cons_false _ hc]
      simp
    rw [hnone]
    rw [ih t hfree2]
    rfl

theorem find?_map_pats {pats vals : Nat → List Char} {n : Nat} {i : Nat}
    (t : List Char)
    (hshape : ∀ j, j < n → patShape (pats j) = true)
    (hnopre : ∀ a, a < n → ∀ b, b < n → a ≠ b → (pats a).isPrefixOf (pats b) = false)
    (hi : i < n) :
    ∀ (l : List Nat), (∀ j ∈ l, j < n) → i ∈ l →
      (l.map fun j => (pats j, vals j)).find?
          (fun pr => pr.1.isPrefixOf (pats i ++ t) && !pr.1.isEmpty) =
        some (pats i, vals i) := by
  intro l
  induction l with
  | nil => intro _ hmem; cases hmem
  | cons j l ih =>
    intro hbound hmem
    rw [List.map_cons, List.find?_cons]
    by_cases hji : j = i
    · subst hji
      have hpre : (pats j).isPrefixOf (pats j ++ t) = true := by
        rw [List.isPrefixOf_iff_prefix]
        exact List.prefix_append _ _
      obtain ⟨ptl, hp, -⟩ := patShape_spec (hshape j hi)
      rw [hpre]
      simp [hp]
    · have hj : j < n := hbound j (List.mem_cons_self _ _)
      obtain ⟨ptli, hpi, -⟩ := patShape_spec (hshape i hi)
      have hfalse : (pats j).isPrefixOf (pats i ++ t) = false :=
        isPrefixOf_append_false (hnopre j hj i hi hji) (hnopre i hi j hj fun h => hji h.symm)
      rw [hfalse]
      simp only [Bool.false_and]
      exact ih (fun x hx => hbound x (List.mem_cons_of_mem _ hx))
        (by rcases List.mem_cons.mp hmem with h | h
            · exact absurd h.symm hji
            · exact h)

theorem multiSubst_pat_append {pats vals : Nat → List Char} {n : Nat} {i : Nat}
    (t : List Char)
    (hshape : ∀ j, j < n → patShape (pats j) = true)
    (hnopre : ∀ a, a < n → ∀ b, b < n → a ≠ b → (pats a).isPrefixOf (pats b) = false)
    (hi : i < n) :
    multiSubst (subsOf pats vals n) (pats i ++ t) =
      vals i ++ multiSubst (subsOf pats vals n) t := by
  obtain ⟨ptl, hpat, -⟩ := patShape_spec (hshape i hi)
  have hfind : (subsOf pats vals n).find?
      (fun pr => pr.1.isPrefixOf (pats i ++ t) && !pr.1.isEmpty) =
        some (pats i, vals i) :=
    find?_map_pats t hshape hnopre hi (List.range n)
      (fun j hj => List.mem_range.mp hj) (List.mem_range.mpr hi)
  rw [hpat] at hfind
  rw [hpat, List.cons_append, multiSubst_cons]
  rw [List.cons_append] at hfind
  rw [hfind]
  have hlen : (atChar :: ptl).length - 1 = ptl.length := by simp
  show vals i ++ multiSubst (subsOf pats vals n)
      (List.drop ((atChar :: ptl).length - 1) (ptl ++ t)) = _
  rw [hlen, List.drop_left]

theorem multiSubst_renderFrom {pats vals : Nat → List Char} {n : Nat}
    {segs : List Seg}
    (hlits : ∀ seg ∈ segs, segLitAtFree seg = true)
    (hshape : ∀ i, i < n → patShape (pats i) = true)
    (hnopre : ∀ a, a < n → ∀ b, b < n → a ≠ b →
      (pats a).isPrefixOf (pats b) = false)
    (hholes : ∀ seg ∈ segs, segHoleLt n seg = true) :
    multiSubst (subsOf pats vals n) (renderFrom pats vals 0 segs) =
      renderFrom pats vals n segs := by
  induction segs with
  | nil => simp [renderFrom, multiSubst_nil]
  | cons seg rest ih =>
    have hlits2 : ∀ sg ∈ rest, segLitAtFree sg = true :=
      fun sg hsg => hlits sg (List.mem_cons_of_mem _ hsg)
    have hholes2 : ∀ sg ∈ rest, segHoleLt n sg = true :=
      fun sg hsg => hholes sg (List.mem_cons_of_mem _ hsg)
    cases seg with
    | lit s =>
      have hfree : atFree s = true := by
        have := hlits (Seg.lit s) (List.mem_cons_self _ _)
        simpa [segLitAtFree] using this
      simp only [renderFrom]
      rw [multiSubst_atFree_append (subsOf_shape hshape) s _ hfree,
        ih hlits2 hholes2]
    | hole i =>
      have hi : i < n := by
        have := hholes (Seg.hole i) (List.mem_cons_self _ _)
        simpa [segHoleLt] using this
      simp only [renderFrom, if_neg (Nat.not_lt_zero i), if_pos hi]
      rw [multiSubst_pat_append _ hshape hnopre hi, ih hlits2 hholes2]

theorem renderFrom_zero_ext {pats vals vals2 : Nat → List Char}
    {segs : List Seg} :
    renderFrom pats vals 0 segs = renderFrom pats vals2 0 segs := by
  induction segs with
  | nil => rfl
  | cons seg rest ih =>
    cases seg with
    | lit s => simp only [renderFrom]; rw [ih]
    | hole i => simp only [renderFrom, if_neg (Nat.not_lt_zero i)]; rw [ih]

theorem replaceAll_renderFrom_hole {pats vals : Nat → List Char} {n : Nat}
    {segs : List Seg} (st : SubstSetup pats vals n segs) {k j : Nat}
    (hk : k < n) (hj : j < n) (hkj : k < j) :
    replaceAll (pats k) (pats j) (renderFrom pats vals k segs) =
      renderFrom pats vals (k + 1) (segs.map (substHole k j)) := by
  obtain ⟨ptlk, hpatk, hfreek⟩ := patShape_spec (st.patsShape k hk)
  induction segs with
  | nil => simp [renderFrom, replaceAll_nil]
  | cons seg rest ih =>
    have stt : SubstSetup pats vals n rest := SubstSetup.tail st
    cases seg with
    | lit s =>
      have hfree : atFree s = true := by
        have := st.litsAtFree (Seg.lit s) (List.mem_cons_self _ _)
        simpa [segLitAtFree] using this
      simp only [List.map_cons, substHole, renderFrom]
      rw [replaceAll_atFree_append (pats j) hpatk s _ hfree, ih stt]
    | hole i =>
      have hi : i < n := by
        have := st.holesLt (Seg.hole i) (List.mem_cons_self _ _)
        simpa [segHoleLt] using this
      rcases lt_trichotomy i k with hik | heq | hki
      · simp only [List.map_cons, substHole, if_neg (by omega : ¬ i = k),
          renderFrom, if_pos hik, if_pos (Nat.lt_succ_of_lt hik)]
        rw [replaceAll_atFree_append (pats j) hpatk _ _ (st.valsAtFree i hi),
          ih stt]
      · subst heq
        simp only [List.map_cons, substHole, if_pos rfl, renderFrom,
          if_neg (lt_irrefl i), if_neg (by omega : ¬ j < i + 1)]
        rw [replaceAll_pat_append _ _ (by rw [hpatk]; exact List.cons_ne_nil _ _),
          ih stt]
      · obtain ⟨ptli, hpati, hfreei⟩ := patShape_spec (st.patsShape i hi)
        simp only [List.map_cons, substHole, if_neg (by omega : ¬ i = k),
          renderFrom, if_neg (by omega : ¬ i < k), if_neg (by omega : ¬ i < k + 1)]
        rw [replaceAll_skip_other (pats i) (pats j) _ hpatk hpati hfreei
          (st.patsNoPrefix k hk i hi (by omega))
          (st.patsNoPrefix i hi k hk (by omega)), ih stt]

theorem SubstSetup.map_substHole {pats vals : Nat → List Char} {n a b : Nat}
    {segs : List Seg} (st : SubstSetup pats vals n segs) (hb : b < n) :
    SubstSetup pats vals n (segs.map (substHole a b)) := by
  refine ⟨?_, st.valsAtFree, st.patsShape, st.patsNoPrefix, ?_⟩
  · intro sg hsg
    obtain ⟨orig, horig, rfl⟩ := List.mem_map.mp hsg
    cases orig with
    | lit s => exact st.litsAtFree (Seg.lit s) horig
    | hole i =>
      show segLitAtFree (if i = a then Seg.hole b else Seg.hole i) = true
      split_ifs <;> rfl
  · intro sg hsg
    obtain ⟨orig, horig, rfl⟩ := List.mem_map.mp hsg
    cases orig with
    | lit s => exact st.holesLt (Seg.lit s) horig
    | hole i =>
      show segHoleLt n (if i = a then Seg.hole b else Seg.hole i) = true
      split_ifs
      · simp [segHoleLt, hb]
      · exact st.holesLt (Seg.hole i) horig

theorem chain_eq_multiSubst {pats vals : Nat → List Char} {n : Nat}
    {segs : List Seg} (st : SubstSetup pats vals n segs) :
    chainOf pats vals n (renderFrom pats vals 0 segs) =
      multiSubst (subsOf pats vals n) (renderFrom pats vals 0 segs) := by
  rw [chainOf_renderFrom st n (le_refl n),
    multiSubst_renderFrom st.litsAtFree st.patsShape st.patsNoPrefix st.holesLt]

end Subst

namespace PrepScript

open Subst

set_option maxRecDepth 40000 in
theorem setup000 (p d t y l : String)
    (hp : atFree p.data = true) (hd : atFree d.data = true)
    (ht : atFree t.data = true) (hy : atFree y.data = true)
    (hl : atFree l.data = true) :
    SubstSetup pats000 (valsOf p d t y l) 5 segs000 := by
  refine ⟨?_, ?_, ?_, ?_, ?_⟩
  · decide
  · intro i hi
    interval_cases i
    · exact hp
    · exact hd
    · exact ht
    · exact hy
    · exact hl
  · decide
  · decide
  · decide

set_option maxRecDepth 40000 in
theorem setup01 (p d t y l : String)
    (hp : atFree p.data = true) (hd : atFree d.data = true)
    (ht : atFree t.data = true) (hy : atFree y.data = true)
    (hl : atFree l.data = true) :
    SubstSetup pats01 (valsOf p d t y l) 5 segs01 := by
  refine ⟨?_, ?_, ?_, ?_, ?_⟩
  · decide
  · intro i hi
    interval_cases i
    · exact hp
    · exact hd
    · exact ht
    · exact hy
    · exact hl
  · decide
  · decide
  · decide

theorem render000 (vals : Nat → List Char) :
    renderFrom pats000 vals 0 segs000 = sqlScript000.data := by
  rw [@renderFrom_zero_ext pats000 vals (fun _ => []) segs000]
  rfl

theorem render01 (vals : Nat → List Char) :
    renderFrom pats01 vals 0 segs01 = sqlScript01.data := by
  rw [@renderFrom_zero_ext pats01 vals (fun _ => []) segs01]
  rfl

theorem chainReplace000_eq_chainOf (p d t y l : String) :
    (chainReplace000 p d t y l).data =
      chainOf pats000 (valsOf p d t y l) 5 sqlScript000.data := rfl

theorem chainReplace01_eq_chainOf (p d t y l : String) :
    (chainReplace01 p d t y l).data =
      chainOf pats01 (valsOf p d t y l) 5 sqlScript01.data := rfl

theorem subsOf000 (p d t y l : String) :
    subsOf pats000 (valsOf p d t y l) 5 =
      [("@PROJECT".data, p.data), ("@DATASET".data, d.data),
       ("@TABLE".data, t.data), ("@YEAR".data, y.data),
       ("@LIMIT".data, l.data)] := rfl

theorem subsOf01 (p d t y l : String) :
    subsOf pats01 (valsOf p d t y l) 5 =
      [("@PROJECT_ID".data, p.data), ("@DATASET".data, d.data),
       ("@TABLE".data, t.data), ("@YEAR".data, y.data),
       ("@LIMIT".data, l.data)] := rfl

/-- C5 (amended): the placeholder substitution is pure simultaneous string
replacement provided the substituted values contain no placeholder marker
character (in the notebooks, `str(year)` and `str(sample_size)` are digit
strings, and project/dataset/table names contain no such marker): under
that proviso the `replace` chain of each data-preparation notebook equals
the template with every placeholder occurrence replaced by its value and
every other character unchanged. -/
theorem replace_chain_simultaneous_amended :
    (∀ p d t y l : String, atFree p.data = true → atFree d.data = true →
      atFree t.data = true → atFree y.data = true → atFree l.data = true →
      (chainReplace000 p d t y l).data =
        multiSubst [("@PROJECT".data, p.data), ("@DATASET".data, d.data),
          ("@TABLE".data, t.data), ("@YEAR".data, y.data),
          ("@LIMIT".data, l.data)] sqlScript000.data) ∧
    (∀ p d t y l : String, atFree p.data = true → atFree d.data = true →
      atFree t.data = true → atFree y.data = true → atFree l.data = true →
      (chainReplace01 p d t y l).data =
        multiSubst [("@PROJECT_ID".data, p.data), ("@DATASET".data, d.data),
          ("@TABLE".data, t.data), ("@YEAR".data, y.data),
          ("@LIMIT".data, l.data)] sqlScript01.data) := by
  constructor
  · intro p d t y l hp hd ht hy hl
    have st := setup000 p d t y l hp hd ht hy hl
    rw [chainReplace000_eq_chainOf, ← subsOf000 p d t y l,
      ← render000 (valsOf p d t y l), chain_eq_multiSubst st]
  · intro p d t y l hp hd ht hy hl
    have st := setup01 p d t y l hp hd ht hy hl
    rw [chainReplace01_eq_chainOf, ← subsOf01 p d t y l,
      ← render01 (valsOf p d t y l), chain_eq_multiSubst st]

/-- Witness for the amended C5 at the notebook's own configuration values
(no value contains the placeholder marker). -/
theorem replace_chain_simultaneous_amended_witness :
    (chainReplace000 "ksalama-cloudml" "playground_us" "chicago_taxitrips_prep"
        "2020" "1000000").data =
      multiSubst [("@PROJECT".data, "ksalama-cloudml".data),
        ("@DATASET".data, "playground_us".data),
        ("@TABLE".data, "chicago_taxitrips_prep".data),
        ("@YEAR".data, "2020".data),
        ("@LIMIT".data, "1000000".data)] sqlScript000.data ∧
    (chainReplace01 "ksalama-cloudml" "playground_us" "chicago_taxitrips_prep"
        "2020" "1000000").data =
      multiSubst [("@PROJECT_ID".data, "ksalama-cloudml".data),
        ("@DATASET".data, "playground_us".data),
        ("@TABLE".data, "chicago_taxitrips_prep".data),
        ("@YEAR".data, "2020".data),
        ("@LIMIT".data, "1000000".data)] sqlScript01.data :=
  ⟨replace_chain_simultaneous_amended.1 "ksalama-cloudml" "playground_us"
      "chicago_taxitrips_prep" "2020" "1000000"
      (by decide) (by decide) (by decide) (by decide) (by decide),
   replace_chain_simultaneous_amended.2 "ksalama-cloudml" "playground_us"
      "chicago_taxitrips_prep" "2020" "1000000"
      (by decide) (by decide) (by decide) (by decide) (by decide)⟩

set_option maxRecDepth 40000 in
theorem setup000c :
    SubstSetup pats000 (valsOf "" "d" "t" "2020" "1000000") 5 segs000 := by
  refine ⟨?_, ?_, ?_, ?_, ?_⟩
  · decide
  · intro i hi
    interval_cases i <;> decide
  · decide
  · decide
  · decide

set_option maxRecDepth 40000 in
/-- C5 counterexample: when the project value itself contains a later
placeholder (here the string `@YEAR`), the sequential `replace` chain
substitutes inside the just-inserted value (the year value ends up where
the project value belongs), so its output differs from the template with
each placeholder occurrence replaced by its given value. -/
theorem replace_chain_not_simultaneous :
    (chainReplace000 "@YEAR" "d" "t" "2020" "1000000").data ≠
      multiSubst [("@PROJECT".data, "@YEAR".data), ("@DATASET".data, "d".data),
        ("@TABLE".data, "t".data), ("@YEAR".data, "2020".data),
        ("@LIMIT".data, "1000000".data)] sqlScript000.data := by
  have st2 := setup000c
  have stx : SubstSetup pats000 (valsOf "" "d" "t" "2020" "1000000") 5
      (segs000.map (substHole 0 3)) :=
    SubstSetup.map_substHole st2 (by norm_num)
  have hunfold : chainOf pats000 (valsOf "@YEAR" "d" "t" "2020" "1000000") 5
        sqlScript000.data =
      replaceAll (pats000 4) (valsOf "" "d" "t" "2020" "1000000" 4)
        (replaceAll (pats000 3) (valsOf "" "d" "t" "2020" "1000000" 3)
          (replaceAll (pats000 2) (valsOf "" "d" "t" "2020" "1000000" 2)
            (replaceAll (pats000 1) (valsOf "" "d" "t" "2020" "1000000" 1)
              (replaceAll (pats000 0) (pats000 3)
                (renderFrom pats000 (valsOf "" "d" "t" "2020" "1000000")
                  0 segs000))))) := by
    rw [render000 (valsOf "" "d" "t" "2020" "1000000")]
    rfl
  have hchain : (chainReplace000 "@YEAR" "d" "t" "2020" "1000000").data =
      renderFrom pats000 (valsOf "" "d" "t" "2020" "1000000") 5
        (segs000.map (substHole 0 3)) := by
    rw [chainReplace000_eq_chainOf, hunfold,
      replaceAll_renderFrom_hole st2 (by norm_num : (0:Nat) < 5)
        (by norm_num : (3:Nat) < 5) (by norm_num : (0:Nat) < 3),
      replaceAll_renderFrom stx (by norm_num : (1:Nat) < 5),
      replaceAll_renderFrom stx (by norm_num : (2:Nat) < 5),
      replaceAll_renderFrom stx (by norm_num : (3:Nat) < 5),
      replaceAll_renderFrom stx (by norm_num : (4:Nat) < 5)]
  have hmulti : multiSubst [("@PROJECT".data, "@YEAR".data),
        ("@DATASET".data, "d".data), ("@TABLE".data, "t".data),
        ("@YEAR".data, "2020".data), ("@LIMIT".data, "1000000".data)]
        sqlScript000.data =
      renderFrom pats000 (valsOf "@YEAR" "d" "t" "2020" "1000000") 5 segs000 := by
    rw [← subsOf000 "@YEAR" "d" "t" "2020" "1000000",
      ← render000 (valsOf "@YEAR" "d" "t" "2020" "1000000")]
    exact multiSubst_renderFrom (by decide) (by decide) (by decide) (by decide)
  rw [hchain, hmulti]
  intro heq
  simp only [segs000, List.map_cons, List.map_nil, substHole, renderFrom] at heq
  norm_num at heq
  have h3 : valsOf "" "d" "t" "2020" "1000000" 3 = '2' :: ("020").data := rfl
  have h0 : valsOf "@YEAR" "d" "t" "2020" "1000000" 0 = '@' :: ("YEAR").data := rfl
  rw [h3, h0] at heq
  simp only [List.cons_append] at heq
  injection heq with hhead htail
  exact absurd hhead (by decide)

end PrepScript

